import Mathlib

/-!
Verification of the deception_RL game-engine core against its specification.

The Python sources under `src/src/engine/` are shallowly embedded below:
pure game logic becomes Lean functions, the mutable engine object becomes an
explicit `EngineState` record threaded through step functions, Python
exceptions become `Option`/`Except` results, and the game-local RNG calls
(`random.shuffle`, `random.sample`, `random.choice`, `random.random`) become
explicit function or boolean parameters, constrained by permutation
hypotheses where a property needs them.

Name mapping (the repository is mid-rename between the Secret-Hitler and the
Impostor vocabulary): president = captain, chancellor = first mate,
fascist card = sabotage, liberal card = security, Hitler = MasterImpostor.
The engine module already uses the Impostor names for roles and cards, so the
embedding does too.
-/

/-- Policy card (`src/models.py`, `PolicyCard`): the engine calls the fascist
card `SABOTAGE` and the liberal card `SECURITY`. -/
inductive PolicyCard
  | security
  | sabotage
deriving DecidableEq, Repr

/-- Agent role (`src/models.py`, `AgentRole`): exactly one MasterImpostor,
one Impostor and three Crewmates in the five-player configuration. -/
inductive AgentRole
  | crewmate
  | impostor
  | masterImpostor
deriving DecidableEq, Repr

/-- Agent record (`src/models.py`, `Agent`). `ai_model = none` marks the
trainable policy slot, exactly as `ai_model is None` does in the source. -/
structure Agent where
  agent_id : String
  role : AgentRole
  ai_model : Option String
  is_policy : Bool
deriving DecidableEq, Repr

/-! ## Deck (`src/src/engine/deck.py`)

The draw pile is `cards` and Python's `list.pop()` removes the last element,
so drawing takes the last element of `cards`.  `random.shuffle` is passed in
as an explicit `shuffle` function. -/

/-- `Deck` state: `cards` is the draw pile, `discard_pile` the discard. -/
structure Deck where
  cards : List PolicyCard
  discard_pile : List PolicyCard
deriving DecidableEq, Repr

/-- Python `list.pop()`: remove and return the last element; `none` models
the `IndexError` on an empty list. -/
def listPop (l : List PolicyCard) : Option (PolicyCard × List PolicyCard) :=
  match l.getLast? with
  | none => none
  | some c => some (c, l.dropLast)

namespace Deck

/-- Total number of cards held by the two piles together. -/
def total (d : Deck) : Nat :=
  d.cards.length + d.discard_pile.length

/-- `Deck._reshuffle_discard`: move the discard pile into the draw pile and
shuffle it; `none` models the `ValueError` raised when both piles are empty. -/
def reshuffleDiscard (shuffle : List PolicyCard → List PolicyCard) (d : Deck) :
    Option Deck :=
  if d.discard_pile.isEmpty then none
  else some { cards := shuffle d.discard_pile, discard_pile := [] }

/-- One iteration of the loop in `Deck.draw`: reshuffle when the draw pile is
empty, then pop the top (last) card. -/
def drawOne (shuffle : List PolicyCard → List PolicyCard) (d : Deck) :
    Option (PolicyCard × Deck) :=
  match (if d.cards.isEmpty then reshuffleDiscard shuffle d else some d) with
  | none => none
  | some d1 =>
    match listPop d1.cards with
    | none => none
    | some (c, rest) => some (c, { d1 with cards := rest })

/-- `Deck.draw(count)`: draw `count` cards, reshuffling the discard pile into
the draw pile whenever the draw pile runs out; `none` models the `ValueError`
escaping when both piles are empty mid-draw. -/
def draw (shuffle : List PolicyCard → List PolicyCard) :
    Nat → Deck → Option (List PolicyCard × Deck)
  | 0, d => some ([], d)
  | n + 1, d => do
    let (c, d1) ← drawOne shuffle d
    let (cs, d2) ← draw shuffle n d1
    some (c :: cs, d2)

/-- `Deck.add_to_discard`: append a card to the discard pile. -/
def addToDiscard (card : PolicyCard) (d : Deck) : Deck :=
  { d with discard_pile := d.discard_pile ++ [card] }

/-- `Deck.cards_remaining`. -/
def cardsRemaining (d : Deck) : Nat :=
  d.cards.length

/-- `Deck._initialize_deck`: `11 * multiplier` sabotage (fascist) cards and
`6 * multiplier` security (liberal) cards, shuffled. -/
def init (shuffle : List PolicyCard → List PolicyCard) (multiplier : Nat) :
    Deck :=
  { cards := shuffle (List.replicate (11 * multiplier) PolicyCard.sabotage ++
      List.replicate (6 * multiplier) PolicyCard.security)
    discard_pile := [] }

end Deck

/-- A shuffle function is length-preserving (any permutation is). -/
def LengthPreserving (shuffle : List PolicyCard → List PolicyCard) : Prop :=
  ∀ l, (shuffle l).length = l.length

theorem listPop_length {l : List PolicyCard} {c : PolicyCard}
    {rest : List PolicyCard} (h : listPop l = some (c, rest)) :
    rest.length + 1 = l.length := by
  unfold listPop at h
  match hl : l.getLast? with
  | none => rw [hl] at h; exact absurd h (by simp)
  | some c' =>
    rw [hl] at h
    have hne : l ≠ [] := by rintro rfl; simp at hl
    have hpos : 0 < l.length := List.length_pos.mpr hne
    simp only [Option.some.injEq, Prod.mk.injEq] at h
    rw [← h.2, List.length_dropLast]
    omega

theorem listPop_isSome {l : List PolicyCard} :
    (listPop l).isSome ↔ l ≠ [] := by
  unfold listPop
  cases hl : l.getLast? with
  | none => simp [List.getLast?_eq_none_iff.mp hl]
  | some c =>
    have hne : l ≠ [] := by rintro rfl; simp at hl
    simp [hne]

theorem Deck.reshuffleDiscard_total {shuffle : List PolicyCard → List PolicyCard}
    (hs : LengthPreserving shuffle) {d d' : Deck} (hc : d.cards = [])
    (h : Deck.reshuffleDiscard shuffle d = some d') :
    d'.total = d.total := by
  unfold Deck.reshuffleDiscard at h
  split at h
  · exact absurd h (by simp)
  · cases h
    simp [Deck.total, hs d.discard_pile, hc]

theorem Deck.drawOne_total {shuffle : List PolicyCard → List PolicyCard}
    (hs : LengthPreserving shuffle) {d d' : Deck} {c : PolicyCard}
    (h : Deck.drawOne shuffle d = some (c, d')) :
    d'.total + 1 = d.total := by
  unfold Deck.drawOne at h
  split at h
  · exact absurd h (by simp)
  · rename_i d1 heq
    split at h
    · exact absurd h (by simp)
    · rename_i c1 rest hp
      cases h
      have hlen := listPop_length hp
      split at heq
      · rename_i hc
        have hcn : d.cards = [] := List.isEmpty_iff.mp hc
        have htot := Deck.reshuffleDiscard_total hs hcn heq
        simp only [Deck.total] at htot ⊢
        omega
      · cases heq
        simp only [Deck.total] at *
        omega

theorem Deck.drawOne_eq_none {shuffle : List PolicyCard → List PolicyCard}
    (hs : LengthPreserving shuffle) {d : Deck} :
    Deck.drawOne shuffle d = none ↔ d.total = 0 := by
  constructor
  · intro h
    unfold Deck.drawOne at h
    split at h
    · rename_i heq
      split at heq
      · rename_i hc
        unfold Deck.reshuffleDiscard at heq
        split at heq
        · rename_i hd
          simp [Deck.total, List.isEmpty_iff.mp hc, List.isEmpty_iff.mp hd]
        · exact absurd heq (by simp)
      · exact absurd heq (by simp)
    · rename_i d1 heq
      split at h
      · rename_i hp
        have h1 : d1.cards = [] := by
          by_contra hne
          have hsome := listPop_isSome.mpr hne
          rw [hp] at hsome
          simp at hsome
        exfalso
        split at heq
        · rename_i hc
          unfold Deck.reshuffleDiscard at heq
          split at heq
          · exact absurd heq (by simp)
          · rename_i hd
            cases heq
            have hslen : (shuffle d.discard_pile).length = d.discard_pile.length :=
              hs _
            have h1' : shuffle d.discard_pile = [] := h1
            have : d.discard_pile.length = 0 := by
              rw [← hslen, h1']
              rfl
            exact hd (by simpa [List.isEmpty_iff] using
              List.eq_nil_of_length_eq_zero this)
        · rename_i hc
          cases heq
          exact hc (by simp [h1])
      · exact absurd h (by simp)
  · intro h
    have hc : d.cards = [] := by
      apply List.eq_nil_of_length_eq_zero
      simp only [Deck.total] at h
      omega
    have hd : d.discard_pile = [] := by
      apply List.eq_nil_of_length_eq_zero
      simp only [Deck.total] at h
      omega
    simp [Deck.drawOne, Deck.reshuffleDiscard, hc, hd]

theorem Deck.draw_spec {shuffle : List PolicyCard → List PolicyCard}
    (hs : LengthPreserving shuffle) :
    ∀ (n : Nat) (d : Deck),
      (∀ cs d', Deck.draw shuffle n d = some (cs, d') →
        cs.length = n ∧ d'.total + n = d.total) ∧
      (Deck.draw shuffle n d = none ↔ d.total < n) := by
  intro n
  induction n with
  | zero =>
    intro d
    refine ⟨?_, ?_⟩
    · intro cs d' h
      simp only [Deck.draw, Option.some.injEq, Prod.mk.injEq] at h
      constructor
      · rw [← h.1]; rfl
      · rw [← h.2]; simp
    · simp [Deck.draw]
  | succ n ih =>
    intro d
    constructor
    · intro cs d' h
      simp only [Deck.draw, Option.bind_eq_bind] at h
      cases h1 : Deck.drawOne shuffle d with
      | none => rw [h1] at h; simp at h
      | some p =>
        rw [h1] at h
        obtain ⟨c, d1⟩ := p
        simp only [Option.some_bind] at h
        cases h2 : Deck.draw shuffle n d1 with
        | none => rw [h2] at h; simp at h
        | some q =>
          rw [h2] at h
          obtain ⟨cs1, d2⟩ := q
          simp only [Option.some_bind, Option.some.injEq, Prod.mk.injEq] at h
          have hone := Deck.drawOne_total hs h1
          have hrec := (ih d1).1 cs1 d2 h2
          constructor
          · rw [← h.1]; simp [hrec.1]
          · rw [← h.2]
            omega
    · constructor
      · intro h
        simp only [Deck.draw, Option.bind_eq_bind] at h
        cases h1 : Deck.drawOne shuffle d with
        | none =>
          have := (Deck.drawOne_eq_none hs).mp h1
          omega
        | some p =>
          rw [h1] at h
          obtain ⟨c, d1⟩ := p
          simp only [Option.some_bind] at h
          cases h2 : Deck.draw shuffle n d1 with
          | none =>
            have := (ih d1).2.mp h2
            have hone := Deck.drawOne_total hs h1
            omega
          | some q =>
            rw [h2] at h
            obtain ⟨cs1, d2⟩ := q
            simp at h
      · intro h
        simp only [Deck.draw, Option.bind_eq_bind]
        cases h1 : Deck.drawOne shuffle d with
        | none => simp
        | some p =>
          obtain ⟨c, d1⟩ := p
          simp only [Option.some_bind]
          have hone := Deck.drawOne_total hs h1
          have : Deck.draw shuffle n d1 = none := (ih d1).2.mpr (by omega)
          simp [this]

/-- Claim C5: `Deck.draw(n)` returns exactly `n` cards whenever the draw pile
and discard pile together hold at least `n` cards (reshuffling the discard
into the draw pile as needed), and fails with the deck-exhausted error
precisely when the two piles together hold fewer than `n` cards. -/
theorem c5_draw_exhaustion (shuffle : List PolicyCard → List PolicyCard)
    (hs : LengthPreserving shuffle) (n : Nat) (d : Deck) :
    ((∃ cs d', Deck.draw shuffle n d = some (cs, d') ∧ cs.length = n) ↔
      n ≤ d.total) ∧
    (Deck.draw shuffle n d = none ↔ d.total < n) := by
  obtain ⟨hsucc, hnone⟩ := Deck.draw_spec hs n d
  refine ⟨⟨?_, ?_⟩, hnone⟩
  · rintro ⟨cs, d', h, hlen⟩
    have := hsucc cs d' h
    omega
  · intro hle
    cases h : Deck.draw shuffle n d with
    | none =>
      have := hnone.mp h
      omega
    | some p =>
      obtain ⟨cs, d'⟩ := p
      exact ⟨cs, d', rfl, (hsucc cs d' h).1⟩

/-- Witness for C5 at a concrete deck: drawing 2 from a deck with one card in
the draw pile and one in the discard pile succeeds (forcing a reshuffle). -/
theorem c5_draw_exhaustion_witness :
    ((∃ cs d', Deck.draw id 2 ⟨[PolicyCard.sabotage], [PolicyCard.security]⟩ =
        some (cs, d') ∧ cs.length = 2) ↔
      2 ≤ Deck.total ⟨[PolicyCard.sabotage], [PolicyCard.security]⟩) ∧
    (Deck.draw id 2 ⟨[PolicyCard.sabotage], [PolicyCard.security]⟩ = none ↔
      Deck.total ⟨[PolicyCard.sabotage], [PolicyCard.security]⟩ < 2) :=
  c5_draw_exhaustion id (fun _ => rfl) 2 _

/-! ## Events (`src/models.py`, the `*Event*` classes)

Every event carries the `event_order_counter` assigned from the engine's
running counter.  Private events are delivered through the
`private_events_by_agent` map, keyed by the recipient agent id, exactly as in
the source. -/

/-- The payload of an engine event, one constructor per event class. -/
inductive EventData
  | presidentPickChancellor (president_id chancellor_id : String)
  | voteChancellorYesNo (voter_id chancellor_nominee_id : String) (vote : Bool)
  | askAgentIfWantsToSpeak (agent_id : String)
      (question_or_statement : Option String)
      (ask_directed_question_to_agent_id : Option String)
  | agentResponseToQuestioning (agent_id in_response_to_agent_id : String)
      (response : String)
  | presidentChooseCardToDiscard (president_id : String)
      (cards_drawn : List PolicyCard) (card_discarded : PolicyCard)
  | chancellorReceivePolicies (chancellor_id president_id_received_from : String)
      (cards_received : List PolicyCard) (card_discarded : PolicyCard)
  | chancellorPlayPolicy (chancellor_id : Option String)
      (card_played : PolicyCard)
deriving DecidableEq, Repr

/-- An engine event: payload plus its `event_order_counter`. -/
structure EngineEvent where
  event_order_counter : Nat
  data : EventData
deriving DecidableEq, Repr

/-- Comparison used by the engine when sorting an agent's visible events
(`sorted(all_events, key=lambda e: e.event_order_counter)`). -/
def eventLE (a b : EngineEvent) : Bool :=
  decide (a.event_order_counter ≤ b.event_order_counter)

/-- Dictionary read with a default, for the assoc-list embedding of the
engine's per-agent dictionaries. -/
def lookupD (m : List (String × Int)) (k : String) (dflt : Int) : Int :=
  (m.lookup k).getD dflt

/-! ## Engine state (`src/src/engine/engine.py`, class `Engine`)

The mutable `Engine` object becomes this record; the insertion-ordered Python
dicts become association lists in insertion order. -/

/-- The engine's mutable state. -/
structure EngineState where
  game_id : String
  deck : Deck
  sabotage_track_target : Nat
  security_track_target : Nat
  promotion_threshold : Nat
  trainable_agent_id : Option String
  agents_by_id : List (String × Agent)
  president_rotation : List String
  current_president_idx : Nat
  current_chancellor_id : Option String
  sabotage_progress : Nat
  security_progress : Nat
  failed_election_tracker : Nat
  event_counter : Nat
  public_events : List EngineEvent
  private_events_by_agent : List (String × List EngineEvent)
  last_seen_event_counter : List (String × Int)
deriving DecidableEq, Repr

/-- Append a public event: the event takes the current counter, which is then
incremented (`self.public_events.append(...)`; `self.event_counter += 1`). -/
def appendPublic (d : EventData) (s : EngineState) : EngineState :=
  { s with
    public_events := s.public_events ++ [⟨s.event_counter, d⟩]
    event_counter := s.event_counter + 1 }

/-- Append a private event for `aid`
(`self.private_events_by_agent[agent_id].append(...)`). -/
def appendPrivate (aid : String) (d : EventData) (s : EngineState) :
    EngineState :=
  { s with
    private_events_by_agent := s.private_events_by_agent.map
      (fun p => if p.1 = aid then (p.1, p.2 ++ [⟨s.event_counter, d⟩]) else p)
    event_counter := s.event_counter + 1 }

/-- The private event stream of one agent
(`self.private_events_by_agent[agent_id]`). -/
def privateEventsOf (s : EngineState) (aid : String) : List EngineEvent :=
  (s.private_events_by_agent.lookup aid).getD []

/-- The event part of `Engine._get_new_user_events_since_last_message`:
public events plus the agent's own private events, sorted by
`event_order_counter`, keeping those newer than the agent's
`last_seen_event_counter` cursor. -/
def newEventsFor (s : EngineState) (agent_id : String) : List EngineEvent :=
  let all_events := s.public_events ++ privateEventsOf s agent_id
  let all_events_sorted := all_events.mergeSort eventLE
  all_events_sorted.filter
    (fun e => decide (lookupD s.last_seen_event_counter agent_id (-1) <
      (e.event_order_counter : Int)))

/-- `Engine._vote`'s tally: `sum(votes) > len(votes) // 2`. -/
def votePasses (votes : List Bool) : Bool :=
  decide (votes.length / 2 < votes.count true)

/-- The per-voter public `VoteChancellorYesNoEventPublic` appends done while
collecting votes in `Engine._vote`, in agent order. -/
def voteStep (chancellor_id : String) (votes : List Bool) (s : EngineState) :
    EngineState :=
  (((s.agents_by_id.map Prod.fst).zip votes).foldl
    (fun st p => appendPublic
      (.voteChancellorYesNo p.1 chancellor_id p.2) st) s)

/-- `Engine._handle_failed_election`: draw the top card, publish it as an
auto-played policy with no chancellor (`chancellor_id=None`), bump the
matching track, reset the failed-election tracker. -/
def handleFailedElection (shuffle : List PolicyCard → List PolicyCard)
    (s : EngineState) : Option EngineState :=
  match Deck.draw shuffle 1 s.deck with
  | none => none
  | some (cards, deck') =>
    match cards with
    | [] => none
    | top_card :: _ =>
      let s := { s with deck := deck' }
      let s := appendPublic (.chancellorPlayPolicy none top_card) s
      let s := if top_card = PolicyCard.sabotage then
          { s with sabotage_progress := s.sabotage_progress + 1 }
        else
          { s with security_progress := s.security_progress + 1 }
      some { s with failed_election_tracker := 0 }

/-- Python `list.pop(idx)`: remove and return the element at `idx`; `none`
models the `IndexError` when the index is out of range. -/
def listPopAt (l : List PolicyCard) (idx : Nat) :
    Option (PolicyCard × List PolicyCard) :=
  match l[idx]? with
  | none => none
  | some x => some (x, l.eraseIdx idx)

/-- The legislative session of `Engine.run` (draw three, president discards
one to the discard pile with a private event, chancellor receives two with a
private event, plays one publicly, the unplayed card goes to the discard
pile, and the matching track advances). -/
def legislativeSession (shuffle : List PolicyCard → List PolicyCard)
    (president_id chancellor_id : String) (discard_idx play_idx : Nat)
    (s : EngineState) : Option EngineState :=
  match Deck.draw shuffle 3 s.deck with
  | none => none
  | some (cards_raw, deck1) =>
    let s := { s with deck := deck1 }
    match listPopAt cards_raw discard_idx with
    | none => none
    | some (discarded_card, cards_rest) =>
      let s := { s with deck := Deck.addToDiscard discarded_card s.deck }
      let s := appendPrivate president_id
        (.presidentChooseCardToDiscard president_id cards_raw discarded_card) s
      match cards_rest[play_idx]?, cards_rest[1 - play_idx]? with
      | some played, some discarded_by_chancellor =>
        let s := { s with
          deck := Deck.addToDiscard discarded_by_chancellor s.deck }
        let s := appendPrivate chancellor_id
          (.chancellorReceivePolicies chancellor_id president_id cards_rest
            discarded_by_chancellor) s
        let s := appendPublic
          (.chancellorPlayPolicy (some chancellor_id) played) s
        let s := if played = PolicyCard.sabotage then
            { s with sabotage_progress := s.sabotage_progress + 1 }
          else
            { s with security_progress := s.security_progress + 1 }
        some s
      | _, _ => none

/-- Advance the captain rotation
(`current_president_idx = (current_president_idx + 1) % len(rotation)`). -/
def advancePresident (s : EngineState) : EngineState :=
  { s with current_president_idx :=
      (s.current_president_idx + 1) % s.president_rotation.length }

/-- `Engine._master_impostor_promoted`. -/
def masterImpostorPromoted (s : EngineState) : Bool :=
  if s.sabotage_progress < s.promotion_threshold then false
  else
    match s.current_chancellor_id with
    | none => false
    | some cid =>
      match s.agents_by_id.lookup cid with
      | some a => decide (a.role = AgentRole.masterImpostor)
      | none => false

/-- `Engine._is_game_over`. -/
def isGameOver (s : EngineState) : Bool :=
  decide (s.sabotage_track_target ≤ s.sabotage_progress) ||
  decide (s.security_track_target ≤ s.security_progress) ||
  masterImpostorPromoted s

/-- `Engine._get_winners`: the Impostor team on a sabotage or promotion win,
otherwise the Crewmates, in agent order. -/
def getWinners (s : EngineState) : List Agent :=
  if decide (s.sabotage_track_target ≤ s.sabotage_progress) ||
      masterImpostorPromoted s then
    (s.agents_by_id.map Prod.snd).filter
      (fun a => decide (a.role = AgentRole.masterImpostor ∨
        a.role = AgentRole.impostor))
  else
    (s.agents_by_id.map Prod.snd).filter
      (fun a => decide (a.role = AgentRole.crewmate))

/-- Wire-level terminal state (`src/src/engine/protocol.py`, `TerminalState`;
the rewards used are the exactly representable floats -1.0, 0.0 and 1.0, so
they are embedded as rationals). -/
structure TerminalState where
  game_id : String
  winners : List Agent
  reward : ℚ
  winning_team : Option String
  trainable_agent_id : Option String
deriving DecidableEq, Repr

/-- `Engine._generate_terminal_state`. -/
def generateTerminalState (s : EngineState) : TerminalState :=
  let winners := getWinners s
  let reward : ℚ := if winners.any (fun a => a.ai_model.isNone) then 1 else 0
  let winning_team : Option String :=
    match winners with
    | [] => none
    | a :: _ =>
      if a.role = AgentRole.crewmate then some "crewmate" else some "impostor"
  { game_id := s.game_id
    winners := winners
    reward := reward
    winning_team := winning_team
    trainable_agent_id := s.trainable_agent_id }

/-! ## Setup (`Engine.__init__`) -/

/-- The fixed role pool `ROLES` at the top of `engine.py`. -/
def ROLES : List AgentRole :=
  [AgentRole.masterImpostor, AgentRole.impostor, AgentRole.crewmate,
    AgentRole.crewmate, AgentRole.crewmate]

/-- Keyword default of `trainable_impostor_prob` in `Engine.__init__`
(`trainable_impostor_prob: float = 0.6`). -/
def engineDefaultTrainableImpostorProb : ℚ := 6 / 10

/-- Keyword default of `trainable_impostor_prob` in `EngineAPI.create`
(`trainable_impostor_prob: float = 0.6`). -/
def engineAPIDefaultTrainableImpostorProb : ℚ := 6 / 10

/-- The assignment loop of `Engine.__init__` when oversampling fires: place
the trainable role at `ti` and fill the other slots from `remaining` in
order. -/
def buildRoles : Nat → Nat → AgentRole → List AgentRole → List AgentRole
  | 0, _, _, _ => []
  | c + 1, 0, trole, remaining => trole :: remaining.take c
  | c + 1, t + 1, trole, remaining =>
    remaining.headD AgentRole.crewmate :: buildRoles c t trole remaining.tail

/-- Role assignment in `Engine.__init__`.  `oversample` is the Bernoulli
outcome of `random.random() < trainable_impostor_prob`, `pickMaster` the
outcome of `random.choice([MASTER_IMPOSTOR, IMPOSTOR])`, and the two shuffle
parameters stand for `random.shuffle` / `random.sample`. -/
def assignRoles (trainable_idx : Option Nat) (oversample : Bool)
    (pickMaster : Bool)
    (shuffleRemaining shuffleAll : List AgentRole → List AgentRole) :
    List AgentRole :=
  match trainable_idx with
  | some ti =>
    if oversample then
      let trainable_role :=
        if pickMaster then AgentRole.masterImpostor else AgentRole.impostor
      let remaining_roles := shuffleRemaining (ROLES.erase trainable_role)
      buildRoles ROLES.length ti trainable_role remaining_roles
    else shuffleAll ROLES
  | none => shuffleAll ROLES

/-- Agent ids `agent_0 .. agent_{n-1}`. -/
def agentIds (n : Nat) : List String :=
  (List.range n).map (fun i => "agent_" ++ toString i)

/-- `Engine.__init__`: builds the initial engine state.  The RNG draws are
passed in explicitly: `oversample`/`pickMaster` for the role oversampling,
`shuffleRemaining`/`shuffleAll` for the role shuffles, and
`rotationShuffle` for `random.sample(agent_ids, len(agent_ids))`. -/
def engineInit (game_id : String) (deck : Deck)
    (ai_models : List (Option String))
    (sabotage_protocols_to_win security_protocols_to_win : Nat)
    (oversample pickMaster : Bool)
    (shuffleRemaining shuffleAll : List AgentRole → List AgentRole)
    (rotationShuffle : List String → List String) : EngineState :=
  let trainable_idx := ai_models.findIdx? Option.isNone
  let shuffled_roles :=
    assignRoles trainable_idx oversample pickMaster shuffleRemaining shuffleAll
  let ids := agentIds ai_models.length
  let agents := (List.range ai_models.length).map (fun i =>
    ({ agent_id := "agent_" ++ toString i
       role := shuffled_roles.getD i AgentRole.crewmate
       ai_model := ai_models.getD i none
       is_policy := decide (trainable_idx = some i) } : Agent))
  { game_id := game_id
    deck := deck
    sabotage_track_target := sabotage_protocols_to_win
    security_track_target := security_protocols_to_win
    promotion_threshold := sabotage_protocols_to_win / 2
    trainable_agent_id := trainable_idx.map (fun i => "agent_" ++ toString i)
    agents_by_id := agents.map (fun a => (a.agent_id, a))
    president_rotation := rotationShuffle ids
    current_president_idx := 0
    current_chancellor_id := none
    sabotage_progress := 0
    security_progress := 0
    failed_election_tracker := 0
    event_counter := 0
    public_events := []
    private_events_by_agent := ids.map (fun aid => (aid, []))
    last_seen_event_counter := ids.map (fun aid => (aid, (-1 : Int))) }

/-! ## The round loop (`Engine.run`)

One iteration of the `while not self._is_game_over()` loop, with the agent
decisions that the loop consumes (nominee, votes, card indices) and the
public discourse events supplied as explicit choice data. -/

/-- The external decisions consumed by one iteration of the round loop. -/
structure RoundChoice where
  chancellor_id : String
  discourse1 : List EventData
  votes : List Bool
  discard_idx : Nat
  play_idx : Nat
  discourse2 : List EventData
deriving Repr

/-- Discourse phases only append public events (speeches and directed
answers); the payloads are supplied as choice data. -/
def appendDiscourse (evs : List EventData) (s : EngineState) : EngineState :=
  evs.foldl (fun st e => appendPublic e st) s

/-- The failed-vote branch of the round loop in `Engine.run`: increment
`failed_election_tracker`, run `_handle_failed_election` when it has reached
3, advance the captain. -/
def failedVoteBranch (shuffle : List PolicyCard → List PolicyCard)
    (s : EngineState) : Option EngineState :=
  match (if 3 ≤ s.failed_election_tracker + 1 then
      handleFailedElection shuffle
        { s with failed_election_tracker := s.failed_election_tracker + 1 }
    else
      some { s with
        failed_election_tracker := s.failed_election_tracker + 1 }) with
  | none => none
  | some s2 => some (advancePresident s2)

/-- The passed-vote branch of the round loop in `Engine.run`: reset the
tracker, seat the chancellor, run the legislative session, run the second
discourse, advance the captain. -/
def passedVoteBranch (shuffle : List PolicyCard → List PolicyCard)
    (c : RoundChoice) (president_id : String) (s : EngineState) :
    Option EngineState :=
  match legislativeSession shuffle president_id c.chancellor_id c.discard_idx
      c.play_idx
      { s with failed_election_tracker := 0,
               current_chancellor_id := some c.chancellor_id } with
  | none => none
  | some s2 => some (advancePresident (appendDiscourse c.discourse2 s2))

/-- The state after the nomination event, the first discourse and the vote
collection, common to both branches of the loop body. -/
def decisionState (c : RoundChoice) (s : EngineState) : EngineState :=
  voteStep c.chancellor_id c.votes
    (appendDiscourse c.discourse1
      (appendPublic (.presidentPickChancellor
        (s.president_rotation.getD s.current_president_idx "")
        c.chancellor_id) s))

/-- One iteration of the round loop of `Engine.run`: nomination, discourse,
vote (with the failed-election branch), legislative session, discourse, and
captain advance. -/
def roundIteration (shuffle : List PolicyCard → List PolicyCard)
    (c : RoundChoice) (s : EngineState) : Option EngineState :=
  if votePasses c.votes then
    passedVoteBranch shuffle c
      (s.president_rotation.getD s.current_president_idx "")
      (decisionState c s)
  else
    failedVoteBranch shuffle (decisionState c s)

/-- The round loop of `Engine.run`: iterate until the game-over predicate
fires or the supplied choice data runs out. -/
def runRounds (shuffle : List PolicyCard → List PolicyCard) :
    List RoundChoice → EngineState → Option EngineState
  | [], s => some s
  | c :: cs, s =>
    if isGameOver s then some s
    else
      match roundIteration shuffle c s with
      | none => none
      | some s' => runRounds shuffle cs s'

/-! ## Deck conservation (P3) -/

/-- Cards in the two piles plus cards resolved on the two tracks. -/
def trackSum (s : EngineState) : Nat :=
  s.deck.total + s.sabotage_progress + s.security_progress

theorem trackSum_appendPublic (e : EventData) (s : EngineState) :
    trackSum (appendPublic e s) = trackSum s := rfl

theorem trackSum_appendPrivate (aid : String) (e : EventData)
    (s : EngineState) : trackSum (appendPrivate aid e s) = trackSum s := rfl

theorem trackSum_advancePresident (s : EngineState) :
    trackSum (advancePresident s) = trackSum s := rfl

theorem trackSum_appendDiscourse (evs : List EventData) (s : EngineState) :
    trackSum (appendDiscourse evs s) = trackSum s := by
  induction evs generalizing s with
  | nil => rfl
  | cons e t ih =>
    have : appendDiscourse (e :: t) s = appendDiscourse t (appendPublic e s) :=
      rfl
    rw [this, ih]
    rfl

theorem trackSum_voteFold (l : List (String × Bool)) (ch : String)
    (s : EngineState) :
    trackSum (l.foldl
      (fun st p => appendPublic (.voteChancellorYesNo p.1 ch p.2) st) s) =
    trackSum s := by
  induction l generalizing s with
  | nil => rfl
  | cons p t ih =>
    rw [List.foldl_cons, ih]
    rfl

theorem trackSum_voteStep (ch : String) (votes : List Bool)
    (s : EngineState) : trackSum (voteStep ch votes s) = trackSum s := by
  unfold voteStep
  exact trackSum_voteFold _ _ _

theorem trackSum_handleFailedElection
    {shuffle : List PolicyCard → List PolicyCard}
    (hs : LengthPreserving shuffle) {s s' : EngineState}
    (h : handleFailedElection shuffle s = some s') :
    trackSum s' = trackSum s := by
  unfold handleFailedElection at h
  split at h
  · exact absurd h (by simp)
  · rename_i cards deck' hdraw
    split at h
    · exact absurd h (by simp)
    · rename_i top_card rest
      have hspec := (Deck.draw_spec hs 1 s.deck).1 _ _ hdraw
      split at h <;> · cases h; simp only [trackSum, appendPublic]; omega

theorem listPopAt_length {l : List PolicyCard} {idx : Nat} {x : PolicyCard}
    {rest : List PolicyCard} (h : listPopAt l idx = some (x, rest)) :
    rest.length + 1 = l.length := by
  unfold listPopAt at h
  split at h
  · exact absurd h (by simp)
  · rename_i y hy
    cases h
    have hidx : idx < l.length := by
      by_contra hge
      rw [List.getElem?_eq_none (by omega)] at hy
      exact absurd hy (by simp)
    rw [List.length_eraseIdx_of_lt hidx]
    omega

theorem trackSum_legislativeSession
    {shuffle : List PolicyCard → List PolicyCard}
    (hs : LengthPreserving shuffle) {president_id chancellor_id : String}
    {discard_idx play_idx : Nat} {s s' : EngineState}
    (h : legislativeSession shuffle president_id chancellor_id discard_idx
      play_idx s = some s') :
    trackSum s' = trackSum s := by
  unfold legislativeSession at h
  split at h
  · exact absurd h (by simp)
  · rename_i cards_raw deck1 hdraw
    split at h
    · exact absurd h (by simp)
    · rename_i discarded_card cards_rest hpop
      split at h
      · rename_i played discarded_by_chancellor hplay hdisc
        have hspec := (Deck.draw_spec hs 3 s.deck).1 _ _ hdraw
        have hlen := listPopAt_length hpop
        split at h <;>
        · cases h
          simp only [trackSum, appendPublic, appendPrivate, Deck.total,
            Deck.addToDiscard, List.length_append, List.length_cons,
            List.length_nil] at *
          omega
      · exact absurd h (by simp)

theorem trackSum_decisionState (c : RoundChoice) (s : EngineState) :
    trackSum (decisionState c s) = trackSum s := by
  unfold decisionState
  rw [trackSum_voteStep, trackSum_appendDiscourse, trackSum_appendPublic]

theorem trackSum_failedVoteBranch
    {shuffle : List PolicyCard → List PolicyCard}
    (hs : LengthPreserving shuffle) {s s' : EngineState}
    (h : failedVoteBranch shuffle s = some s') :
    trackSum s' = trackSum s := by
  unfold failedVoteBranch at h
  split at h
  · exact absurd h (by simp)
  · rename_i s2 hbranch
    cases h
    rw [trackSum_advancePresident]
    split at hbranch
    · have h2 := trackSum_handleFailedElection hs hbranch
      exact h2
    · cases hbranch; rfl

theorem trackSum_passedVoteBranch
    {shuffle : List PolicyCard → List PolicyCard}
    (hs : LengthPreserving shuffle) {c : RoundChoice} {president_id : String}
    {s s' : EngineState}
    (h : passedVoteBranch shuffle c president_id s = some s') :
    trackSum s' = trackSum s := by
  unfold passedVoteBranch at h
  split at h
  · exact absurd h (by simp)
  · rename_i s2 hleg
    cases h
    rw [trackSum_advancePresident, trackSum_appendDiscourse]
    have h2 := trackSum_legislativeSession hs hleg
    exact h2

theorem trackSum_roundIteration
    {shuffle : List PolicyCard → List PolicyCard}
    (hs : LengthPreserving shuffle) {c : RoundChoice} {s s' : EngineState}
    (h : roundIteration shuffle c s = some s') :
    trackSum s' = trackSum s := by
  unfold roundIteration at h
  split at h
  · rw [trackSum_passedVoteBranch hs h, trackSum_decisionState]
  · rw [trackSum_failedVoteBranch hs h, trackSum_decisionState]

theorem trackSum_runRounds {shuffle : List PolicyCard → List PolicyCard}
    (hs : LengthPreserving shuffle) {cs : List RoundChoice}
    {s s' : EngineState} (h : runRounds shuffle cs s = some s') :
    trackSum s' = trackSum s := by
  induction cs generalizing s with
  | nil =>
    simp only [runRounds, Option.some.injEq] at h
    rw [← h]
  | cons c t ih =>
    simp only [runRounds] at h
    split at h
    · simp only [Option.some.injEq] at h
      rw [← h]
    · split at h
      · exact absurd h (by simp)
      · rename_i s1 hstep
        rw [ih h, trackSum_roundIteration hs hstep]

/-- Concrete deck used by the witnesses: multiplier 1, identity shuffle. -/
def witnessDeck : Deck := Deck.init id 1

/-- Concrete initial engine state used by the witnesses: five agents, the
fifth slot trainable, targets 4 sabotage / 3 security, no oversampling. -/
def witnessInitState : EngineState :=
  engineInit "game-0" witnessDeck [some "m", some "m", some "m", some "m", none]
    4 3 false false id id id

/-- Concrete round choice used by the witnesses: nominate agent_1, the vote
passes 3-2, the captain discards index 0, the first mate plays index 0. -/
def witnessRound : RoundChoice :=
  { chancellor_id := "agent_1"
    discourse1 := []
    votes := [true, true, true, false, false]
    discard_idx := 0
    play_idx := 0
    discourse2 := [] }

/-- Claim C3: after every engine step (legislative session with its draw of
three, two discards and one resolution; failed-election auto-resolve;
reshuffles inside draws), the number of cards in the draw pile plus the
discard pile plus the two track counters equals the initial deck size
(17 per multiplier). -/
theorem c3_deck_conservation (shuffle : List PolicyCard → List PolicyCard)
    (hs : LengthPreserving shuffle) (m : Nat) (cs : List RoundChoice)
    (s s' : EngineState) (hdeck : s.deck = Deck.init shuffle m)
    (hsab : s.sabotage_progress = 0) (hsec : s.security_progress = 0)
    (hrun : runRounds shuffle cs s = some s') :
    s'.deck.cards.length + s'.deck.discard_pile.length +
      s'.sabotage_progress + s'.security_progress = 17 * m := by
  have h1 := trackSum_runRounds hs hrun
  have h2 : trackSum s = 17 * m := by
    simp only [trackSum, Deck.total, hdeck, hsab, hsec, Deck.init, hs _,
      List.length_append, List.length_replicate, List.length_nil]
    omega
  simp only [trackSum, Deck.total] at h1 h2
  omega

/-- Witness for C3: one full passing round from the concrete initial state
leaves 14 + 2 cards in the piles and 1 resolved policy, summing to 17. -/
theorem c3_deck_conservation_witness :
    ∃ s', runRounds id [witnessRound] witnessInitState = some s' ∧
      s'.deck.cards.length + s'.deck.discard_pile.length +
        s'.sabotage_progress + s'.security_progress = 17 * 1 := by
  cases hrun : runRounds id [witnessRound] witnessInitState with
  | none => exact absurd hrun (by decide)
  | some s' =>
    exact ⟨s', rfl, c3_deck_conservation id (fun _ => rfl) 1 [witnessRound]
      witnessInitState s' rfl rfl rfl hrun⟩

/-! ## Failed-election tracker bound (C10) -/

theorem tracker_appendDiscourse (evs : List EventData) (s : EngineState) :
    (appendDiscourse evs s).failed_election_tracker =
      s.failed_election_tracker := by
  induction evs generalizing s with
  | nil => rfl
  | cons e t ih =>
    have : appendDiscourse (e :: t) s = appendDiscourse t (appendPublic e s) :=
      rfl
    rw [this, ih]
    rfl

theorem tracker_voteFold (l : List (String × Bool)) (ch : String)
    (s : EngineState) :
    (l.foldl (fun st p => appendPublic (.voteChancellorYesNo p.1 ch p.2) st)
      s).failed_election_tracker = s.failed_election_tracker := by
  induction l generalizing s with
  | nil => rfl
  | cons p t ih =>
    rw [List.foldl_cons, ih]
    rfl

theorem tracker_decisionState (c : RoundChoice) (s : EngineState) :
    (decisionState c s).failed_election_tracker =
      s.failed_election_tracker := by
  unfold decisionState voteStep
  rw [tracker_voteFold, tracker_appendDiscourse]
  rfl

theorem tracker_handleFailedElection
    {shuffle : List PolicyCard → List PolicyCard} {s s' : EngineState}
    (h : handleFailedElection shuffle s = some s') :
    s'.failed_election_tracker = 0 := by
  unfold handleFailedElection at h
  split at h
  · exact absurd h (by simp)
  · split at h
    · exact absurd h (by simp)
    · split at h <;> · cases h; rfl

theorem tracker_failedVoteBranch
    {shuffle : List PolicyCard → List PolicyCard} {s s' : EngineState}
    (h : failedVoteBranch shuffle s = some s') :
    s'.failed_election_tracker =
      (if 3 ≤ s.failed_election_tracker + 1 then 0
       else s.failed_election_tracker + 1) := by
  unfold failedVoteBranch at h
  split at h
  · exact absurd h (by simp)
  · rename_i s2 hbranch
    cases h
    split at hbranch
    · rename_i hcond
      rw [if_pos hcond]
      have h2 := tracker_handleFailedElection hbranch
      exact h2
    · rename_i hcond
      rw [if_neg hcond]
      cases hbranch
      rfl

theorem tracker_legislativeSession
    {shuffle : List PolicyCard → List PolicyCard}
    {president_id chancellor_id : String} {discard_idx play_idx : Nat}
    {s s' : EngineState}
    (h : legislativeSession shuffle president_id chancellor_id discard_idx
      play_idx s = some s') :
    s'.failed_election_tracker = s.failed_election_tracker := by
  unfold legislativeSession at h
  split at h
  · exact absurd h (by simp)
  · split at h
    · exact absurd h (by simp)
    · split at h
      · split at h <;> · cases h; rfl
      · exact absurd h (by simp)

theorem tracker_passedVoteBranch
    {shuffle : List PolicyCard → List PolicyCard} {c : RoundChoice}
    {president_id : String} {s s' : EngineState}
    (h : passedVoteBranch shuffle c president_id s = some s') :
    s'.failed_election_tracker = 0 := by
  unfold passedVoteBranch at h
  split at h
  · exact absurd h (by simp)
  · rename_i s2 hleg
    cases h
    have h2 := tracker_legislativeSession hleg
    show (appendDiscourse c.discourse2 s2).failed_election_tracker = 0
    rw [tracker_appendDiscourse, h2]

theorem tracker_roundIteration
    {shuffle : List PolicyCard → List PolicyCard} {c : RoundChoice}
    {s s' : EngineState} (h : roundIteration shuffle c s = some s')
    (hle : s.failed_election_tracker ≤ 2) :
    s'.failed_election_tracker ≤ 2 := by
  unfold roundIteration at h
  split at h
  · rw [tracker_passedVoteBranch h]
    omega
  · rw [tracker_failedVoteBranch h, tracker_decisionState]
    split <;> omega

/-- Claim C10: along the round loop, the failed-election tracker stays at
most 2 at the start of every iteration (it is reset both on reaching 3 and
on a passed nomination vote, before the legislative session). -/
theorem c10_tracker_bound (shuffle : List PolicyCard → List PolicyCard)
    (cs : List RoundChoice) (s s' : EngineState)
    (hle : s.failed_election_tracker ≤ 2)
    (hrun : runRounds shuffle cs s = some s') :
    s'.failed_election_tracker ≤ 2 := by
  induction cs generalizing s with
  | nil =>
    simp only [runRounds, Option.some.injEq] at hrun
    rw [← hrun]
    exact hle
  | cons c t ih =>
    simp only [runRounds] at hrun
    split at hrun
    · simp only [Option.some.injEq] at hrun
      rw [← hrun]
      exact hle
    · split at hrun
      · exact absurd hrun (by simp)
      · rename_i s1 hstep
        exact ih _ (tracker_roundIteration hstep hle) hrun

/-- Witness for C10 at the concrete one-round run. -/
theorem c10_tracker_bound_witness :
    ∃ s', runRounds id [witnessRound] witnessInitState = some s' ∧
      s'.failed_election_tracker ≤ 2 := by
  cases hrun : runRounds id [witnessRound] witnessInitState with
  | none => exact absurd hrun (by decide)
  | some s' =>
    exact ⟨s', rfl, c10_tracker_bound id [witnessRound] witnessInitState s'
      (by decide) hrun⟩

/-- Claim C9: the promotion threshold is not an independent configuration
parameter of `Engine.__init__`; it is always computed as the sabotage target
integer-divided by 2. -/
theorem c9_promotion_threshold (game_id : String) (deck : Deck)
    (ai_models : List (Option String)) (sab sec : Nat)
    (oversample pickMaster : Bool)
    (shuffleRemaining shuffleAll : List AgentRole → List AgentRole)
    (rotationShuffle : List String → List String) :
    (engineInit game_id deck ai_models sab sec oversample pickMaster
      shuffleRemaining shuffleAll rotationShuffle).promotion_threshold =
      sab / 2 := rfl

/-! ## Vote semantics and the triple-fail auto-resolve (C6) -/

theorem handleFailedElection_spec
    {shuffle : List PolicyCard → List PolicyCard}
    (hs : LengthPreserving shuffle) {s s' : EngineState}
    (h : handleFailedElection shuffle s = some s') :
    s'.failed_election_tracker = 0 ∧
    ∃ top_card deck1,
      Deck.draw shuffle 1 s.deck = some ([top_card], deck1) ∧
      s'.deck = deck1 ∧
      s'.public_events = s.public_events ++
        [⟨s.event_counter, EventData.chancellorPlayPolicy none top_card⟩] ∧
      s'.event_counter = s.event_counter + 1 ∧
      ((top_card = PolicyCard.sabotage ∧
          s'.sabotage_progress = s.sabotage_progress + 1 ∧
          s'.security_progress = s.security_progress) ∨
       (top_card = PolicyCard.security ∧
          s'.security_progress = s.security_progress + 1 ∧
          s'.sabotage_progress = s.sabotage_progress)) := by
  unfold handleFailedElection at h
  split at h
  · exact absurd h (by simp)
  · rename_i cards deck' hdraw
    split at h
    · exact absurd h (by simp)
    · rename_i top_card rest
      have hspec := (Deck.draw_spec hs 1 s.deck).1 _ _ hdraw
      have hrest : rest = [] := by
        apply List.eq_nil_of_length_eq_zero
        have h1 := hspec.1
        simp only [List.length_cons] at h1
        omega
      subst hrest
      split at h
      · rename_i hcard
        cases h
        exact ⟨rfl, top_card, deck', hdraw, rfl, rfl, rfl,
          Or.inl ⟨hcard, rfl, rfl⟩⟩
      · rename_i hcard
        cases h
        have hsec : top_card = PolicyCard.security := by
          cases top_card
          · rfl
          · exact absurd rfl hcard
        exact ⟨rfl, top_card, deck', hdraw, rfl, rfl, rfl,
          Or.inr ⟨hsec, rfl, rfl⟩⟩

/-- Claim C6: a nomination passes iff strictly more than half of the
collected votes are yes; on a failed vote the tracker is incremented, and on
reaching 3 the top deck card is resolved onto its track as a public
policy-resolved event with no actor and the tracker is reset to 0. -/
theorem c6_vote_majority_auto_resolve
    (shuffle : List PolicyCard → List PolicyCard)
    (hs : LengthPreserving shuffle) (votes : List Bool)
    (s s' : EngineState) (hfail : failedVoteBranch shuffle s = some s') :
    (votePasses votes = true ↔ 2 * votes.count true > votes.length) ∧
    (s.failed_election_tracker + 1 < 3 →
      s'.failed_election_tracker = s.failed_election_tracker + 1 ∧
      s'.public_events = s.public_events ∧
      s'.sabotage_progress = s.sabotage_progress ∧
      s'.security_progress = s.security_progress) ∧
    (3 ≤ s.failed_election_tracker + 1 →
      s'.failed_election_tracker = 0 ∧
      ∃ top_card deck1,
        Deck.draw shuffle 1 s.deck = some ([top_card], deck1) ∧
        s'.public_events = s.public_events ++
          [⟨s.event_counter, EventData.chancellorPlayPolicy none top_card⟩] ∧
        ((top_card = PolicyCard.sabotage ∧
            s'.sabotage_progress = s.sabotage_progress + 1 ∧
            s'.security_progress = s.security_progress) ∨
         (top_card = PolicyCard.security ∧
            s'.security_progress = s.security_progress + 1 ∧
            s'.sabotage_progress = s.sabotage_progress))) := by
  refine ⟨?_, ?_⟩
  · constructor
    · intro h
      simp only [votePasses, decide_eq_true_eq] at h
      omega
    · intro h
      simp only [votePasses, decide_eq_true_eq]
      omega
  · unfold failedVoteBranch at hfail
    split at hfail
    · exact absurd hfail (by simp)
    · rename_i s2 hbranch
      cases hfail
      split at hbranch
      · rename_i hcond
        have hspec := handleFailedElection_spec hs hbranch
        obtain ⟨htr, top_card, deck1, hdraw, hdeck, hpub, hctr, hcase⟩ := hspec
        constructor
        · intro hlt
          omega
        · intro _
          exact ⟨htr, top_card, deck1, hdraw, hpub, hcase⟩
      · rename_i hcond
        cases hbranch
        constructor
        · intro _
          exact ⟨rfl, rfl, rfl, rfl⟩
        · intro hge
          omega

/-- A concrete engine state with the tracker already at 2 and one sabotage
card on the deck, used to exercise the auto-resolve branch. -/
def autoResolveState : EngineState :=
  { game_id := "g"
    deck := ⟨[PolicyCard.sabotage], []⟩
    sabotage_track_target := 4
    security_track_target := 3
    promotion_threshold := 2
    trainable_agent_id := none
    agents_by_id := []
    president_rotation := ["agent_0"]
    current_president_idx := 0
    current_chancellor_id := none
    sabotage_progress := 0
    security_progress := 0
    failed_election_tracker := 2
    event_counter := 0
    public_events := []
    private_events_by_agent := []
    last_seen_event_counter := [] }

/-- Witness for C6: from tracker 2, a failed vote auto-resolves and resets
the tracker to 0. -/
theorem c6_vote_majority_auto_resolve_witness :
    ∃ s', failedVoteBranch id autoResolveState = some s' ∧
      s'.failed_election_tracker = 0 := by
  cases hb : failedVoteBranch id autoResolveState with
  | none => exact absurd hb (by decide)
  | some s' =>
    have h := c6_vote_majority_auto_resolve id (fun _ => rfl)
      [true, true, true, false, false] autoResolveState s' hb
    exact ⟨s', rfl, (h.2.2 (by decide)).1⟩

/-! ## Terminal state postcondition (C4) -/

/-- Claim C4: when the game-over predicate holds, the winners are the
Impostor team on a sabotage or promotion win and the Crewmate team on a
security win, and the reward is 1.0 exactly when the trainable policy agent
(the one whose ai_model is nil) is among the winners, else 0.0. -/
theorem c4_terminal_postcondition (s : EngineState)
    (hover : isGameOver s = true) :
    (¬(s.sabotage_track_target ≤ s.sabotage_progress ∨
        masterImpostorPromoted s = true) →
      s.security_track_target ≤ s.security_progress) ∧
    (∀ a, a ∈ (generateTerminalState s).winners ↔
      (a ∈ s.agents_by_id.map Prod.snd ∧
        (if s.sabotage_track_target ≤ s.sabotage_progress ∨
            masterImpostorPromoted s = true
         then a.role = AgentRole.masterImpostor ∨ a.role = AgentRole.impostor
         else a.role = AgentRole.crewmate))) ∧
    ((generateTerminalState s).reward =
      if ∃ a ∈ (generateTerminalState s).winners, a.ai_model = none
      then 1 else 0) := by
  have hwinners : (generateTerminalState s).winners = getWinners s := rfl
  have hbool : ((decide (s.sabotage_track_target ≤ s.sabotage_progress) ||
      masterImpostorPromoted s) = true) ↔
      (s.sabotage_track_target ≤ s.sabotage_progress ∨
        masterImpostorPromoted s = true) := by
    simp
  refine ⟨?_, ?_, ?_⟩
  · intro hn
    simp only [isGameOver, Bool.or_eq_true, decide_eq_true_eq] at hover
    rcases hover with (h | h) | h
    · exact absurd (Or.inl h) hn
    · exact h
    · exact absurd (Or.inr h) hn
  · intro a
    rw [hwinners]
    unfold getWinners
    by_cases hw : s.sabotage_track_target ≤ s.sabotage_progress ∨
        masterImpostorPromoted s = true
    · rw [if_pos (hbool.mpr hw), if_pos hw]
      simp [List.mem_filter]
    · rw [if_neg (fun hh => hw (hbool.mp hh)), if_neg hw]
      simp [List.mem_filter]
  · have hr : (generateTerminalState s).reward =
        (if (getWinners s).any (fun a => a.ai_model.isNone) then (1 : ℚ)
         else 0) := rfl
    rw [hr]
    by_cases hx : ∃ a ∈ (generateTerminalState s).winners, a.ai_model = none
    · rw [if_pos hx]
      obtain ⟨a, ha, hm⟩ := hx
      have ha' : a ∈ getWinners s := by rw [← hwinners]; exact ha
      have hany : (getWinners s).any (fun a => a.ai_model.isNone) = true :=
        List.any_eq_true.mpr ⟨a, ha', by simp [hm]⟩
      rw [if_pos hany]
    · rw [if_neg hx]
      have hnone : ¬((getWinners s).any (fun a => a.ai_model.isNone) = true) := by
        intro hany
        obtain ⟨a, ha, hm⟩ := List.any_eq_true.mp hany
        refine hx ⟨a, ?_, by simpa using hm⟩
        rw [hwinners]
        exact ha
      rw [if_neg hnone]

/-- A concrete finished game: the sabotage track has reached its target and
the trainable crewmate is not among the winners. -/
def gameOverState : EngineState :=
  { game_id := "g"
    deck := ⟨[], []⟩
    sabotage_track_target := 4
    security_track_target := 3
    promotion_threshold := 2
    trainable_agent_id := some "agent_4"
    agents_by_id :=
      [("agent_0", ⟨"agent_0", AgentRole.masterImpostor, some "m", false⟩),
       ("agent_1", ⟨"agent_1", AgentRole.impostor, some "m", false⟩),
       ("agent_2", ⟨"agent_2", AgentRole.crewmate, some "m", false⟩),
       ("agent_3", ⟨"agent_3", AgentRole.crewmate, some "m", false⟩),
       ("agent_4", ⟨"agent_4", AgentRole.crewmate, none, true⟩)]
    president_rotation := ["agent_0", "agent_1", "agent_2", "agent_3",
      "agent_4"]
    current_president_idx := 0
    current_chancellor_id := none
    sabotage_progress := 4
    security_progress := 0
    failed_election_tracker := 0
    event_counter := 0
    public_events := []
    private_events_by_agent := []
    last_seen_event_counter := [] }

/-- Witness for C4 at the concrete finished game. -/
theorem c4_terminal_postcondition_witness :
    isGameOver gameOverState = true ∧
    ((generateTerminalState gameOverState).reward =
      if ∃ a ∈ (generateTerminalState gameOverState).winners,
          a.ai_model = none
      then 1 else 0) :=
  ⟨by decide, (c4_terminal_postcondition gameOverState (by decide)).2.2⟩

/-! ## Private isolation (C7, spec property P2) -/

theorem lookup_mem {m : List (String × List EngineEvent)} {k : String}
    {v : List EngineEvent} (h : m.lookup k = some v) : (k, v) ∈ m := by
  obtain ⟨l₁, l₂, rfl, -⟩ := List.lookup_eq_some_iff.mp h
  simp

/-- If the event counters across all the per-agent streams are distinct,
an event value cannot sit in the streams of two different agents. -/
theorem nodup_flatten_not_shared {l : List (String × List EngineEvent)}
    (hnd : (((l.map Prod.snd).flatten).map
      EngineEvent.event_order_counter).Nodup) :
    ∀ p ∈ l, ∀ q ∈ l, p.1 ≠ q.1 → ∀ e ∈ p.2, e ∉ q.2 := by
  induction l with
  | nil => simp
  | cons x t ih =>
    have hsplit : (((x :: t).map Prod.snd).flatten).map
        EngineEvent.event_order_counter =
        (x.2.map EngineEvent.event_order_counter) ++
          (((t.map Prod.snd).flatten).map EngineEvent.event_order_counter) := by
      rw [List.map_cons, List.flatten_cons, List.map_append]
    rw [hsplit] at hnd
    obtain ⟨hx, hj, hdisj⟩ := List.nodup_append.mp hnd
    intro p hp q hq hne e hep heq
    have hmem_flat : ∀ r ∈ t, ∀ ev ∈ r.2,
        (ev.event_order_counter ∈
          (((t.map Prod.snd).flatten).map EngineEvent.event_order_counter)) := by
      intro r hr ev hev
      exact List.mem_map.mpr ⟨ev,
        List.mem_flatten.mpr ⟨r.2, List.mem_map.mpr ⟨r, hr, rfl⟩, hev⟩, rfl⟩
    rcases List.mem_cons.mp hp with hpx | hpt
    · rcases List.mem_cons.mp hq with hqx | hqt
      · exact hne (hpx ▸ hqx ▸ rfl)
      · subst hpx
        exact hdisj (List.mem_map.mpr ⟨e, hep, rfl⟩) (hmem_flat q hqt e heq)
    · rcases List.mem_cons.mp hq with hqx | hqt
      · subst hqx
        exact hdisj (List.mem_map.mpr ⟨e, heq, rfl⟩) (hmem_flat p hpt e hep)
      · exact ih hj p hpt q hqt hne e hep heq

/-- Claim C7: the event snapshot folded into an agent's history contains, in
event-counter order, exactly the public events plus the agent's own private
events that are newer than its cursor, and never a private event of a
different agent (given the engine invariant that counters are distinct). -/
theorem c7_private_isolation (s : EngineState) (aid : String)
    (hnodup : ((s.public_events ++
        (s.private_events_by_agent.map Prod.snd).flatten).map
        EngineEvent.event_order_counter).Nodup) :
    (∀ e, e ∈ newEventsFor s aid ↔
      ((e ∈ s.public_events ∨ e ∈ privateEventsOf s aid) ∧
        lookupD s.last_seen_event_counter aid (-1) <
          (e.event_order_counter : Int))) ∧
    (newEventsFor s aid).Pairwise
      (fun a b => a.event_order_counter ≤ b.event_order_counter) ∧
    (∀ b evs, (b, evs) ∈ s.private_events_by_agent → b ≠ aid →
      ∀ e, e ∈ evs → e ∉ newEventsFor s aid) := by
  have hmem : ∀ e, e ∈ newEventsFor s aid ↔
      ((e ∈ s.public_events ∨ e ∈ privateEventsOf s aid) ∧
        lookupD s.last_seen_event_counter aid (-1) <
          (e.event_order_counter : Int)) := by
    intro e
    simp [newEventsFor, List.mem_filter, List.mem_append]
  refine ⟨hmem, ?_, ?_⟩
  · have htrans : ∀ (a b c : EngineEvent),
        eventLE a b → eventLE b c → eventLE a c := by
      intro a b c hab hbc
      simp only [eventLE, decide_eq_true_eq] at *
      omega
    have htotal : ∀ (a b : EngineEvent), eventLE a b || eventLE b a := by
      intro a b
      simp only [eventLE, Bool.or_eq_true, decide_eq_true_eq]
      omega
    have hsorted := List.sorted_mergeSort htrans htotal
      (s.public_events ++ privateEventsOf s aid)
    have hfilter : (newEventsFor s aid).Sublist
        ((s.public_events ++ privateEventsOf s aid).mergeSort eventLE) := by
      unfold newEventsFor
      exact List.filter_sublist _
    have hpair := List.Pairwise.sublist hfilter hsorted
    exact hpair.imp (by
      intro a b hab
      simpa [eventLE] using hab)
  · intro b evs hbm hbne e hevs hin
    have h1 := (hmem e).mp hin
    rw [List.map_append] at hnodup
    obtain ⟨hnd_pub, hnd_join, hdisj⟩ := List.nodup_append.mp hnodup
    rcases h1.1 with hpub | hpriv
    · have he_flat : e.event_order_counter ∈
          (((s.private_events_by_agent.map Prod.snd).flatten).map
            EngineEvent.event_order_counter) :=
        List.mem_map.mpr ⟨e, List.mem_flatten.mpr ⟨evs,
          List.mem_map.mpr ⟨(b, evs), hbm, rfl⟩, hevs⟩, rfl⟩
      exact hdisj (List.mem_map.mpr ⟨e, hpub, rfl⟩) he_flat
    · unfold privateEventsOf at hpriv
      cases hlk : s.private_events_by_agent.lookup aid with
      | none => rw [hlk] at hpriv; simp at hpriv
      | some evsA =>
        rw [hlk] at hpriv
        simp only [Option.getD_some] at hpriv
        have hA : (aid, evsA) ∈ s.private_events_by_agent := lookup_mem hlk
        exact nodup_flatten_not_shared hnd_join (b, evs) hbm (aid, evsA) hA
          hbne e hevs hpriv

/-- The captain's private card-draw event used by the isolation witness. -/
def privateDrawEvent : EngineEvent :=
  ⟨1, EventData.presidentChooseCardToDiscard "agent_0"
    [PolicyCard.security, PolicyCard.security, PolicyCard.sabotage]
    PolicyCard.sabotage⟩

/-- A concrete state with one public event and one private event each for
agent_0 and agent_1. -/
def isolationState : EngineState :=
  { game_id := "g"
    deck := ⟨[], []⟩
    sabotage_track_target := 4
    security_track_target := 3
    promotion_threshold := 2
    trainable_agent_id := none
    agents_by_id := []
    president_rotation := ["agent_0", "agent_1"]
    current_president_idx := 0
    current_chancellor_id := none
    sabotage_progress := 0
    security_progress := 0
    failed_election_tracker := 0
    event_counter := 3
    public_events := [⟨0, EventData.presidentPickChancellor "agent_0"
      "agent_1"⟩]
    private_events_by_agent :=
      [("agent_0", [privateDrawEvent]),
       ("agent_1", [⟨2, EventData.chancellorReceivePolicies "agent_1"
         "agent_0" [PolicyCard.security, PolicyCard.security]
         PolicyCard.security⟩])]
    last_seen_event_counter := [("agent_0", -1), ("agent_1", -1)] }

/-- Witness for C7: agent_0's private card draw never reaches agent_1's
snapshot. -/
theorem c7_private_isolation_witness :
    ((isolationState.public_events ++
        (isolationState.private_events_by_agent.map Prod.snd).flatten).map
        EngineEvent.event_order_counter).Nodup ∧
    privateDrawEvent ∉ newEventsFor isolationState "agent_1" :=
  ⟨by decide,
    (c7_private_isolation isolationState "agent_1" (by decide)).2.2
      "agent_0" [privateDrawEvent] (by decide) (by decide)
      privateDrawEvent (by decide)⟩

/-! ## External response parser
(`src/src/engine/external_agent_response_parser.py`)

`ModelOutput.function_calling_json` is a string fed to `json.loads`; the
embedding carries the decoded JSON value directly, with `none` standing for
any string `json.loads` rejects.  Python falsiness (`if not tool_name`) and
the `tool_map` dispatch are embedded as written.  Pydantic construction of
the tool object requires the typed fields and tolerates extra keys (pydantic
ignores extras by default). -/

/-- JSON values as decoded by `json.loads`. -/
inductive Json
  | null
  | bool (b : Bool)
  | num (n : Int)
  | str (s : String)
  | arr (xs : List Json)
  | obj (fields : List (String × Json))

/-- Python falsiness of a JSON value (`if not tool_name`). -/
def jsonFalsy : Json → Bool
  | .null => true
  | .bool b => !b
  | .num n => decide (n = 0)
  | .str s => decide (s = "")
  | .arr xs => xs.isEmpty
  | .obj fs => fs.isEmpty

/-- The typed errors the parser (and the tool hydration underneath it) can
raise: `ValueError` for bad JSON / missing or unknown tool name, the
`AttributeError` from calling `.get` on a non-dict, the `TypeError` from
`**arguments` on a non-dict, and pydantic's `ValidationError`. -/
inductive ParseError
  | invalidJson
  | missingToolName
  | unknownTool (name : String)
  | attributeError
  | typeError
  | validationError (tool_name : String)
deriving DecidableEq, Repr

/-- The hydrated tool objects (`src/models.py`, the `*Tool` classes). -/
inductive Tools
  | presidentPickChancellor (agent_id : String)
  | voteChancellorYesNo (choice : Bool)
  | presidentChooseCardToDiscard (card_index : Int)
  | chancellorPlayPolicy (card_index : Int)
  | chooseAgentToVoteOut (agent_id : Option String)
  | askAgentIfWantsToSpeak
      (question_or_statement ask_directed_question_to_agent_id : Option String)
  | agentResponseToQuestion (response : String)
deriving DecidableEq, Repr

/-- The keys of `tool_map` in
`ExternalAgentResponseParser._hydrate_tool`. -/
def knownToolNames : List String :=
  ["president-pick-chancellor", "vote-chancellor-yes-no",
   "president-choose-card-to-discard", "chancellor-play-policy",
   "choose-agent-to-vote-out", "ask-agent-if-wants-to-speak",
   "agent-response-to-question-tool"]

/-- A JSON string argument (pydantic `str`). -/
def asString : Json → Option String
  | .str s => some s
  | _ => none

/-- A JSON boolean argument (pydantic `bool`). -/
def asBool : Json → Option Bool
  | .bool b => some b
  | _ => none

/-- A JSON integer argument (pydantic `int`). -/
def asInt : Json → Option Int
  | .num n => some n
  | _ => none

/-- A JSON nullable-string argument (pydantic `str | None`). -/
def asOptString : Json → Option (Option String)
  | .null => some none
  | .str s => some (some s)
  | _ => none

/-- Pydantic construction of the tool object from keyword arguments: the
required typed fields must be present, extra keys are ignored. -/
def hydrateFields (tool_name : String) (fields : List (String × Json)) :
    Except ParseError Tools :=
  if tool_name = "president-pick-chancellor" then
    match (fields.lookup "agent_id").bind asString with
    | some a => .ok (.presidentPickChancellor a)
    | none => .error (.validationError tool_name)
  else if tool_name = "vote-chancellor-yes-no" then
    match (fields.lookup "choice").bind asBool with
    | some b => .ok (.voteChancellorYesNo b)
    | none => .error (.validationError tool_name)
  else if tool_name = "president-choose-card-to-discard" then
    match (fields.lookup "card_index").bind asInt with
    | some i => .ok (.presidentChooseCardToDiscard i)
    | none => .error (.validationError tool_name)
  else if tool_name = "chancellor-play-policy" then
    match (fields.lookup "card_index").bind asInt with
    | some i => .ok (.chancellorPlayPolicy i)
    | none => .error (.validationError tool_name)
  else if tool_name = "choose-agent-to-vote-out" then
    match (fields.lookup "agent_id").bind asOptString with
    | some a => .ok (.chooseAgentToVoteOut a)
    | none => .error (.validationError tool_name)
  else if tool_name = "ask-agent-if-wants-to-speak" then
    match (fields.lookup "question_or_statement").bind asOptString,
        (fields.lookup "ask_directed_question_to_agent_id").bind
          asOptString with
    | some q, some t => .ok (.askAgentIfWantsToSpeak q t)
    | _, _ => .error (.validationError tool_name)
  else if tool_name = "agent-response-to-question-tool" then
    match (fields.lookup "response").bind asString with
    | some r => .ok (.agentResponseToQuestion r)
    | none => .error (.validationError tool_name)
  else .error (.unknownTool tool_name)

/-- `ExternalAgentResponseParser._hydrate_tool`: look the name up in
`tool_map` (unknown names are a `ValueError`), then construct the tool
object from `**arguments` (a non-dict is a `TypeError`). -/
def hydrateTool (tool_name : String) (arguments : Json) :
    Except ParseError Tools :=
  if tool_name ∈ knownToolNames then
    match arguments with
    | .obj fields => hydrateFields tool_name fields
    | _ => .error .typeError
  else .error (.unknownTool tool_name)

/-- Wire-level `ModelOutput` (`src/src/engine/protocol.py`):
`function_calling_json = none` stands for a string `json.loads` rejects. -/
structure ModelOutput where
  function_calling_json : Option Json
  reasoning : Option String

/-- One entry of `AssistantResponse.tool_calls` (`src/models.py`,
`ToolCall`; the generated uuid is irrelevant and omitted). -/
structure ToolCall where
  tool_name : String
  input : Json

/-- `src/models.py`, `AssistantResponse`. -/
structure AssistantResponse where
  reasoning : Option String
  text_response : Option String
  tool_calls : List ToolCall
  hydrated_tool_calls : List Tools

/-- `ExternalAgentResponseParser.parse`. -/
def parse (mo : ModelOutput) : Except ParseError AssistantResponse :=
  match mo.function_calling_json with
  | none => .error .invalidJson
  | some data =>
    match data with
    | .obj fields =>
      match fields.lookup "tool_name" with
      | none => .error .missingToolName
      | some tn =>
        if jsonFalsy tn then .error .missingToolName
        else
          match tn with
          | .str sname =>
            match hydrateTool sname
                ((fields.lookup "arguments").getD (Json.obj [])) with
            | .error e => .error e
            | .ok hydrated =>
              .ok { reasoning :=
                      match mo.reasoning with
                      | some "" => none
                      | r => r
                    text_response := none
                    tool_calls :=
                      [⟨sname, (fields.lookup "arguments").getD
                        (Json.obj [])⟩]
                    hydrated_tool_calls := [hydrated] }
          | _ => .error (.unknownTool "")
    | _ => .error .attributeError

/-- The policy branch of `Engine._get_tool`: the requested tool name is put
into the outgoing `ModelInput.tool_call`, but the awaited `ModelOutput` is
parsed without ever comparing against it. -/
def policyDecision (requested_tool : String) (mo : ModelOutput) :
    Except ParseError AssistantResponse :=
  parse mo

theorem hydrateTool_ok_known {tool_name : String} {arguments : Json}
    {t : Tools} (h : hydrateTool tool_name arguments = .ok t) :
    tool_name ∈ knownToolNames := by
  unfold hydrateTool at h
  split at h
  · assumption
  · exact absurd h (by simp)

/-- A `ModelOutput` naming a valid but different tool than the requested
`president-pick-chancellor`. -/
def wrongToolOutput : ModelOutput :=
  { function_calling_json := some (.obj
      [("tool_name", .str "vote-chancellor-yes-no"),
       ("arguments", .obj [("choice", .bool true)])])
    reasoning := none }

/-- What `parse` produces on `wrongToolOutput`. -/
def wrongToolResponse : AssistantResponse :=
  { reasoning := none
    text_response := none
    tool_calls := [⟨"vote-chancellor-yes-no",
      Json.obj [("choice", Json.bool true)]⟩]
    hydrated_tool_calls := [Tools.voteChancellorYesNo true] }

/-- Counterexample to C2 as stated: during a decision whose requested tool is
`president-pick-chancellor`, a `ModelOutput` naming
`vote-chancellor-yes-no` is accepted by the parser, so the decoded name does
not always equal the requested one and no typed error is raised. -/
theorem c2_counterexample :
    ¬ (∀ (requested : String) (mo : ModelOutput) (r : AssistantResponse),
        policyDecision requested mo = .ok r →
        ∀ tc ∈ r.tool_calls, tc.tool_name = requested) := by
  intro h
  have hp : policyDecision "president-pick-chancellor" wrongToolOutput =
      .ok wrongToolResponse := rfl
  have h2 := h "president-pick-chancellor" wrongToolOutput wrongToolResponse
    hp ⟨"vote-chancellor-yes-no", Json.obj [("choice", Json.bool true)]⟩
    (by simp [wrongToolResponse])
  exact absurd h2 (by decide)

/-- Claim C2 (amended): the parser accepts exactly the tool names of its
fixed seven-entry tool map (when hydration succeeds); it never compares the
decoded tool name against the tool requested in the preceding
`ModelInput.tool_call`, so any known tool name is accepted even when it
differs from the requested one. -/
theorem c2_parser_tool_names (requested : String) (mo : ModelOutput)
    (r : AssistantResponse) (h : policyDecision requested mo = .ok r) :
    (∀ tc ∈ r.tool_calls, tc.tool_name ∈ knownToolNames) ∧
    policyDecision requested mo = parse mo := by
  refine ⟨?_, rfl⟩
  unfold policyDecision parse at h
  split at h
  · exact absurd h (by simp)
  · split at h
    · rename_i fields
      split at h
      · exact absurd h (by simp)
      · rename_i tn htn
        split at h
        · exact absurd h (by simp)
        · split at h
          · rename_i sname
            split at h
            · exact absurd h (by simp)
            · rename_i hydrated hhyd
              cases h
              intro tc htc
              simp only [List.mem_singleton] at htc
              subst htc
              exact hydrateTool_ok_known hhyd
          · exact absurd h (by simp)
    · exact absurd h (by simp)

/-- Witness for the amended C2 at the concrete wrong-tool output. -/
theorem c2_parser_tool_names_witness :
    policyDecision "president-pick-chancellor" wrongToolOutput =
      Except.ok wrongToolResponse ∧
    (∀ tc ∈ wrongToolResponse.tool_calls, tc.tool_name ∈ knownToolNames) :=
  ⟨rfl, (c2_parser_tool_names "president-pick-chancellor" wrongToolOutput
    wrongToolResponse rfl).1⟩

/-! ## The orchestrator task wrapper (C1)
(`src/src/engine/engine_api.py`, `EngineAPI._run_engine`)

`_run_engine` awaits `engine.run`; an `AgentNotFoundError` is converted to a
terminal `ModelInput` with reward -1, but every other exception — including
the parser's `ValueError` on a malformed external `ModelOutput` — makes it
put a plain STRING (`f"Engine error: ..."`) on the output queue instead of a
`ModelInput`. -/

/-- `src/src/engine/protocol.py`, `ToolCallTarget` (schema omitted). -/
structure ToolCallTarget where
  name : String
deriving DecidableEq, Repr

/-- Wire-level `ModelInput`; messages are kept opaque as rendered strings. -/
structure ModelInput where
  messages : List String
  tool_call : Option ToolCallTarget
  terminal_state : Option TerminalState
deriving DecidableEq, Repr

/-- What `_run_engine` can place on the output queue: a `ModelInput`, or the
raw error string of the generic exception branch. -/
inductive QueueItem
  | modelInput (mi : ModelInput)
  | errorString (msg : String)
deriving DecidableEq, Repr

/-- How one run of `engine.run` ends: normally, with an
`AgentNotFoundError`, or with any other exception. -/
inductive EngineExc
  | agentNotFound (msg : String)
  | otherError (msg : String)
deriving DecidableEq, Repr

/-- The message of a parser error (`str(e)` of the raised exception). -/
def parseErrorMessage : ParseError → String
  | .invalidJson => "Invalid JSON response"
  | .missingToolName => "Response must contain 'tool_name'"
  | .unknownTool n => "Unknown tool name: " ++ n
  | .attributeError => "AttributeError"
  | .typeError => "TypeError"
  | .validationError n => "ValidationError: " ++ n

/-- A parse error inside `Engine._get_tool` propagates out of `Engine.run`
as a `ValueError` (or `TypeError`/`ValidationError`), none of which is an
`AgentNotFoundError`. -/
def parseErrorToEngineExc (e : ParseError) : EngineExc :=
  .otherError (parseErrorMessage e)

/-- `EngineAPI._run_engine`: given the items `engine.run` already put on the
output queue and how the run ended, the final content of the output queue.
The `AgentNotFoundError` handler appends a terminal `ModelInput` with reward
-1; the generic handler appends the error STRING. -/
def runEngineEmits (game_id : String) (emittedDuringRun : List QueueItem)
    (outcome : Option EngineExc) : List QueueItem :=
  match outcome with
  | none => emittedDuringRun
  | some (.agentNotFound _) =>
    emittedDuringRun ++ [.modelInput
      { messages := []
        tool_call := none
        terminal_state := some
          { game_id := game_id
            winners := []
            reward := -1
            winning_team := none
            trainable_agent_id := none } }]
  | some (.otherError msg) =>
    emittedDuringRun ++ [.errorString ("Engine error: " ++ msg)]

/-- Whether a queue item is a `ModelInput` carrying a terminal state. -/
def isTerminalItem : QueueItem → Bool
  | .modelInput mi => mi.terminal_state.isSome
  | .errorString _ => false

/-- A `ModelOutput` whose `function_calling_json` is not valid JSON
(for example the string "{broken"). -/
def brokenOutput : ModelOutput :=
  { function_calling_json := none, reasoning := none }

/-- Claim C1, evaluated at the failing input: a malformed external
`ModelOutput` makes the parser raise, and the orchestrator wrapper then
emits only the error string — no `ModelInput` whose terminal_state is
non-null ever reaches the output queue, contrary to the claim. -/
theorem c1_parse_failure_emits_no_terminal :
    parse brokenOutput = Except.error ParseError.invalidJson ∧
    runEngineEmits "game-0" []
        (some (parseErrorToEngineExc ParseError.invalidJson)) =
      [QueueItem.errorString "Engine error: Invalid JSON response"] ∧
    (∀ item ∈ runEngineEmits "game-0" []
        (some (parseErrorToEngineExc ParseError.invalidJson)),
      isTerminalItem item = false) := by
  refine ⟨rfl, rfl, ?_⟩
  intro item hitem
  simp only [runEngineEmits, parseErrorToEngineExc, parseErrorMessage,
    List.nil_append, List.mem_singleton] at hitem
  subst hitem
  rfl

/-! ## Role-assignment oversampling (C8) -/

theorem buildRoles_perm : ∀ (c t : Nat) (trole : AgentRole)
    (rem : List AgentRole), t < c → rem.length + 1 = c →
    List.Perm (buildRoles c t trole rem) (trole :: rem) := by
  intro c
  induction c with
  | zero => intro t trole rem ht _; omega
  | succ c ih =>
    intro t trole rem ht hlen
    cases t with
    | zero =>
      have htake : rem.take c = rem := List.take_of_length_le (by omega)
      simp [buildRoles, htake]
    | succ t' =>
      cases rem with
      | nil => simp at hlen; omega
      | cons r rs =>
        simp only [buildRoles, List.headD_cons, List.tail_cons]
        have hperm := ih t' trole rs (by omega)
          (by simp at hlen; omega)
        exact (hperm.cons r).trans (List.Perm.swap trole r rs)

theorem buildRoles_getElem : ∀ (c t : Nat) (trole : AgentRole)
    (rem : List AgentRole), t < c →
    (buildRoles c t trole rem)[t]? = some trole := by
  intro c
  induction c with
  | zero => intro t trole rem ht; omega
  | succ c ih =>
    intro t trole rem ht
    cases t with
    | zero => simp [buildRoles]
    | succ t' =>
      simp only [buildRoles, List.getElem?_cons_succ]
      exact ih t' trole rem.tail (by omega)

/-- Claim C8 (amended): when a trainable slot is present and the Bernoulli
draw (`random.random() < trainable_impostor_prob`) fires, the trainable
agent's role is the `random.choice` between MasterImpostor and Impostor and
the remaining roles are shuffled over the other four agents (the assignment
stays a permutation of ROLES); otherwise all five roles are shuffled
uniformly.  The knob is the `trainable_impostor_prob` keyword of
`Engine.__init__` and `EngineAPI.create`, whose default is 0.6, not 0. -/
theorem c8_role_oversampling (trainable_idx : Option Nat)
    (oversample pickMaster : Bool)
    (shuffleRemaining shuffleAll : List AgentRole → List AgentRole)
    (hR : ∀ l, List.Perm (shuffleRemaining l) l)
    (hA : ∀ l, List.Perm (shuffleAll l) l) :
    (∀ ti, trainable_idx = some ti → oversample = true → ti < 5 →
      List.Perm (assignRoles trainable_idx oversample pickMaster
        shuffleRemaining shuffleAll) ROLES ∧
      (assignRoles trainable_idx oversample pickMaster shuffleRemaining
        shuffleAll)[ti]? =
        some (if pickMaster then AgentRole.masterImpostor
          else AgentRole.impostor) ∧
      (if pickMaster then AgentRole.masterImpostor else AgentRole.impostor)
        ∈ [AgentRole.masterImpostor, AgentRole.impostor]) ∧
    ((trainable_idx = none ∨ oversample = false) →
      assignRoles trainable_idx oversample pickMaster shuffleRemaining
        shuffleAll = shuffleAll ROLES ∧
      List.Perm (assignRoles trainable_idx oversample pickMaster
        shuffleRemaining shuffleAll) ROLES) ∧
    engineDefaultTrainableImpostorProb = 6 / 10 ∧
    engineAPIDefaultTrainableImpostorProb = 6 / 10 := by
  refine ⟨?_, ?_, rfl, rfl⟩
  · intro ti hti hos hlt
    subst hti
    subst hos
    have htrole : (if pickMaster then AgentRole.masterImpostor
        else AgentRole.impostor) ∈ ROLES := by
      cases pickMaster <;> simp [ROLES]
    have hassign : assignRoles (some ti) true pickMaster shuffleRemaining
        shuffleAll =
        buildRoles ROLES.length ti
          (if pickMaster then AgentRole.masterImpostor
            else AgentRole.impostor)
          (shuffleRemaining (ROLES.erase
            (if pickMaster then AgentRole.masterImpostor
              else AgentRole.impostor))) := by
      simp [assignRoles]
    have hlen : (shuffleRemaining (ROLES.erase
        (if pickMaster then AgentRole.masterImpostor
          else AgentRole.impostor))).length + 1 = ROLES.length := by
      rw [(hR _).length_eq, List.length_erase_of_mem htrole]
      rfl
    have hlt' : ti < ROLES.length := hlt
    refine ⟨?_, ?_, by cases pickMaster <;> simp⟩
    · rw [hassign]
      refine ((buildRoles_perm _ _ _ _ hlt' hlen).trans ?_)
      exact ((hR _).cons _).trans (List.perm_cons_erase htrole).symm
    · rw [hassign]
      exact buildRoles_getElem _ _ _ _ hlt'
  · intro hcase
    have heq : assignRoles trainable_idx oversample pickMaster
        shuffleRemaining shuffleAll = shuffleAll ROLES := by
      rcases hcase with rfl | hos
      · rfl
      · subst hos
        cases trainable_idx with
        | none => rfl
        | some ti => simp [assignRoles]
    exact ⟨heq, heq ▸ hA ROLES⟩

/-- Counterexample to C8 as stated: the oversampling knob's default is not
0; both `Engine.__init__` and `EngineAPI.create` default
`trainable_impostor_prob` to 0.6. -/
theorem c8_counterexample :
    ¬(engineDefaultTrainableImpostorProb = 0 ∧
      engineAPIDefaultTrainableImpostorProb = 0) := by
  intro h
  have := h.1
  norm_num [engineDefaultTrainableImpostorProb] at this

/-- Witness for the amended C8: with the trainable agent in slot 4 and the
oversampling draw firing with the Impostor pick, the assignment is a
permutation of ROLES whose slot 4 is Impostor. -/
theorem c8_role_oversampling_witness :
    List.Perm (assignRoles (some 4) true false id id) ROLES ∧
    (assignRoles (some 4) true false id id)[4]? =
      some AgentRole.impostor := by
  have h := c8_role_oversampling (some 4) true false id id
    (fun l => List.Perm.refl l) (fun l => List.Perm.refl l)
  obtain ⟨hp, hg, -⟩ := h.1 4 rfl rfl (by omega)
  refine ⟨hp, ?_⟩
  simpa using hg
